/-
Verification of the Element Repository core of the
Prompt-Driven-Self-Healing-Test-Framework repository.

The definitions below are a shallow embedding of
`services/mcp-server/element_repository.py` and of the error-code mapping of
`services/mcp-server/schema_validator.py`.  Python mutation is modelled by
explicit state passing; `asyncio` operations all serialize through one lock in
the source, so each operation is a sequential state transformer.  Machine
floats are modelled exactly: confidence scores and success rates as exact
rationals, clock values and timestamps as integers (no claim depends on
fractional time); Python exceptions are modelled with `Except`, and because Python
object mutation survives a raised exception, fallible operations return the
(possibly partially mutated) state together with the `Except` outcome.
-/
import Mathlib

namespace ElementRepo

/-- Lifecycle status of a locator, from `class LocatorStatus(Enum)`. -/
inductive LocatorStatus where
  | ACTIVE
  | PENDING
  | DEPRECATED
  | REJECTED
  | DRAFT
deriving DecidableEq, Repr, Inhabited

/-- Approval workflow status, from `class ApprovalStatus(Enum)`. -/
inductive ApprovalStatus where
  | PENDING
  | APPROVED
  | REJECTED
  | AUTO_APPROVED
deriving DecidableEq, Repr, Inhabited

/-- Python is dynamically typed: after a JSON reload the `status` field of a
version holds the string produced by `str(enum_member)` rather than an enum
member, so the field's value space is the union of the two. -/
inductive StatusVal where
  | en : LocatorStatus → StatusVal
  | st : String → StatusVal
deriving DecidableEq, Repr, Inhabited

/-- Same union for the dynamically typed `approval_status` field. -/
inductive ApprovalVal where
  | en : ApprovalStatus → ApprovalVal
  | st : String → ApprovalVal
deriving DecidableEq, Repr, Inhabited

/-- `str(member)` for `LocatorStatus`, as produced by `json.dump(..., default=str)`. -/
def locatorStatusStr : LocatorStatus → String
  | .ACTIVE => "LocatorStatus.ACTIVE"
  | .PENDING => "LocatorStatus.PENDING"
  | .DEPRECATED => "LocatorStatus.DEPRECATED"
  | .REJECTED => "LocatorStatus.REJECTED"
  | .DRAFT => "LocatorStatus.DRAFT"

/-- `str(member)` for `ApprovalStatus`. -/
def approvalStatusStr : ApprovalStatus → String
  | .PENDING => "ApprovalStatus.PENDING"
  | .APPROVED => "ApprovalStatus.APPROVED"
  | .REJECTED => "ApprovalStatus.REJECTED"
  | .AUTO_APPROVED => "ApprovalStatus.AUTO_APPROVED"

/-- One version of an element locator, from `@dataclass class LocatorVersion`.
Timestamps (ISO strings derived from the clock in the source) are abstracted
as integer clock values. -/
structure LocatorVersion where
  version : Nat
  css_selector : String
  xpath_selector : Option String
  alternatives : List String
  confidence_score : ℚ
  created_at : Int
  created_by : String
  status : StatusVal
  approval_status : ApprovalVal
  approved_by : Option String
  approved_at : Option Int
  usage_count : Nat
  success_rate : ℚ
  last_used : Option Int
  ai_reasoning : Option String
  validation_results : List (String × String)
deriving DecidableEq, Repr, Inhabited

/-- Complete element record, from `@dataclass class ElementRecord`.
`active_version` is `Int` because `approve_version` stores its caller-supplied
version number (which may be zero or negative) into this field unchecked. -/
structure ElementRecord where
  element_name : String
  versions : List LocatorVersion
  active_version : Int
  description : Option String
  tags : List String
  page_context : Option (List (String × String))
  created_at : Int
  updated_at : Option Int
deriving DecidableEq, Repr, Inhabited

/-- Python list indexing: nonnegative indices are direct, negative indices
count from the end, anything out of range raises `IndexError` (`none`). -/
def pyIdx (n : Nat) (i : Int) : Option Nat :=
  if 0 ≤ i then (if i < (n : Int) then some i.toNat else none)
  else (if 0 ≤ i + (n : Int) then some (i + (n : Int)).toNat else none)

/-- `record.get_active_version()`: the referenced version when
`0 < active_version <= len(versions)`, otherwise `None`. -/
def ElementRecord.get_active_version (r : ElementRecord) : Option LocatorVersion :=
  if 0 < r.active_version ∧ r.active_version ≤ (r.versions.length : Int) then
    r.versions[(r.active_version - 1).toNat]?
  else none

/-- Association list lookup with Python `dict` semantics (unique keys). -/
def lookupA {α : Type} (l : List (String × α)) (k : String) : Option α :=
  match l with
  | [] => none
  | (k', v) :: t => if k' = k then some v else lookupA t k

/-- `d[k] = v` on a Python dict: update in place if the key exists (keeping
its position in insertion order), otherwise append. -/
def insertA {α : Type} (l : List (String × α)) (k : String) (v : α) : List (String × α) :=
  match l with
  | [] => [(k, v)]
  | (k', v') :: t => if k' = k then (k, v) :: t else (k', v') :: insertA t k v

/-- `d.pop(k, None)` on a Python dict: remove the key if present. -/
def eraseA {α : Type} (l : List (String × α)) (k : String) : List (String × α) :=
  match l with
  | [] => []
  | (k', v') :: t => if k' = k then t else (k', v') :: eraseA t k

/-- Python exceptions raised by the repository code. -/
inductive PyErr where
  | valueError : String → PyErr
  | indexError : PyErr
deriving DecidableEq, Repr

/-- Decidable equality for operation outcomes. -/
instance {ε α : Type} [DecidableEq ε] [DecidableEq α] : DecidableEq (Except ε α) :=
  fun a b =>
    match a, b with
    | .ok x, .ok y =>
      if h : x = y then .isTrue (by rw [h]) else .isFalse (by simp [h])
    | .error x, .error y =>
      if h : x = y then .isTrue (by rw [h]) else .isFalse (by simp [h])
    | .ok _, .error _ => .isFalse (by simp)
    | .error _, .ok _ => .isFalse (by simp)

/-- In-memory cache state, from `class ElementRepositoryCache`.  `entries`
models `_cache` (name ↦ (record, insertion time)), `access_times` models
`_access_times`; both are insertion-ordered dicts. -/
structure Cache where
  max_size : Nat
  ttl_seconds : Int
  entries : List (String × (ElementRecord × Int))
  access_times : List (String × Int)
deriving DecidableEq, Repr, Inhabited

/-- The cache constructed by `ElementRepository.__init__` (defaults
`max_size=10000`, `ttl_seconds=300`). -/
def Cache.empty : Cache :=
  { max_size := 10000, ttl_seconds := 300, entries := [], access_times := [] }

/-- `_evict`: remove one element from both cache dicts. -/
def Cache.evict (c : Cache) (name : String) : Cache :=
  { c with entries := eraseA c.entries name, access_times := eraseA c.access_times name }

/-- `invalidate` just delegates to `_evict`. -/
def Cache.invalidate (c : Cache) (name : String) : Cache :=
  c.evict name

/-- `get`: TTL check (absolute from insertion), lazy eviction of expired
entries, last-access refresh on a hit. -/
def Cache.get (c : Cache) (name : String) (now : Int) : Cache × Option ElementRecord :=
  match lookupA c.entries name with
  | some (record, cache_time) =>
    if c.ttl_seconds < now - cache_time then (c.evict name, none)
    else ({ c with access_times := insertA c.access_times name now }, some record)
  | none => (c, none)

/-- `min(self._access_times.items(), key=...)`: Python `min` keeps the first
minimum in traversal order. -/
def lruScan : (String × Int) → List (String × Int) → String × Int
  | best, [] => best
  | best, y :: rest => lruScan (if y.2 < best.2 then y else best) rest

/-- `_evict_lru`: evict the least recently accessed entry, if any. -/
def Cache.evictLRU (c : Cache) : Cache :=
  match c.access_times with
  | [] => c
  | x :: rest => c.evict (lruScan x rest).1

/-- `put`: evict the LRU entry when at capacity and the key is new, then
store the record with the current time in both dicts. -/
def Cache.put (c : Cache) (name : String) (record : ElementRecord) (now : Int) : Cache :=
  let c := if c.max_size ≤ c.entries.length ∧ lookupA c.entries name = none
           then c.evictLRU else c
  { c with entries := insertA c.entries name (record, now),
           access_times := insertA c.access_times name now }

/-- `ApprovalWorkflow.auto_approval_rules["trusted_creators"]`. -/
def trustedCreators : List String := ["system", "admin"]

/-- `auto_approval_rules["confidence_threshold"] = 0.9`, written as an
explicit reduced fraction 9/10 so that comparisons against it compute. -/
def confidenceThreshold : ℚ := ⟨9, 10, by decide, by decide⟩

/-- `ApprovalWorkflow._should_auto_approve`: high confidence or trusted
creator (the minor-change rule is an unimplemented comment in the source). -/
def should_auto_approve (v : LocatorVersion) : Bool :=
  decide (confidenceThreshold ≤ v.confidence_score) || trustedCreators.contains v.created_by

/-- `ApprovalWorkflow.submit_for_approval`: mutates the version's approval
fields when auto-approving, and returns the resulting approval status. -/
def submit_for_approval (now : Int) (v : LocatorVersion) : LocatorVersion × ApprovalStatus :=
  if should_auto_approve v then
    ({ v with approval_status := .en .AUTO_APPROVED,
              approved_at := some now,
              approved_by := some "system" }, .AUTO_APPROVED)
  else
    ({ v with approval_status := .en .PENDING }, .PENDING)

/-- Full repository state, from `class ElementRepository.__init__`:
the authoritative insertion-ordered map `_elements`, the cache, and a counter
of persistence writes initiated (each `_save_to_storage` call or
`asyncio.create_task(self._save_to_storage())`). -/
structure RepoState where
  elements : List (String × ElementRecord)
  cache : Cache
  saves : Nat
deriving DecidableEq, Repr

/-- A freshly constructed repository. -/
def RepoState.empty : RepoState :=
  { elements := [], cache := Cache.empty, saves := 0 }

/-- `ElementRepository.get_element`: cache-first lookup; on a cache miss an
authoritative-map hit is filtered when `include_inactive` is false and the
referenced active version exists with a status other than `ACTIVE`; a
surviving hit populates the cache. -/
def get_element (s : RepoState) (now : Int) (name : String) (include_inactive : Bool) :
    RepoState × Option ElementRecord :=
  let res := s.cache.get name now
  let s := { s with cache := res.1 }
  match res.2 with
  | some cached => (s, some cached)
  | none =>
    match lookupA s.elements name with
    | some record =>
      if !include_inactive &&
         (match record.get_active_version with
          | some av => av.status != .en .ACTIVE
          | none => false) then
        (s, none)
      else
        ({ s with cache := s.cache.put name record now }, some record)
    | none => (s, none)

/-- `ElementRepository.create_element`: rejects duplicates, builds version 1
as DRAFT with `confidence_score` left at its default `0.0`, submits it for
approval, activates it directly when auto-approved, stores the record,
caches it, and persists. -/
def create_element (s : RepoState) (now : Int) (name css : String)
    (xpath : Option String) (alternatives : List String)
    (created_by : String) (ai_reasoning : Option String) :
    RepoState × Except PyErr ElementRecord :=
  if (lookupA s.elements name).isSome then
    (s, .error (.valueError ("Element " ++ name ++ " already exists")))
  else
    let v : LocatorVersion :=
      { version := 1, css_selector := css, xpath_selector := xpath,
        alternatives := alternatives, confidence_score := 0, created_at := now,
        created_by := created_by, status := .en .DRAFT,
        approval_status := .en .PENDING, approved_by := none, approved_at := none,
        usage_count := 0, success_rate := 0, last_used := none,
        ai_reasoning := ai_reasoning, validation_results := [] }
    let sub := submit_for_approval now v
    let v := if sub.2 = .AUTO_APPROVED then { sub.1 with status := .en .ACTIVE } else sub.1
    let record : ElementRecord :=
      { element_name := name, versions := [v],
        active_version := if v.status = .en .ACTIVE then 1 else 0,
        description := none, tags := [], page_context := none,
        created_at := now, updated_at := none }
    let s := { s with elements := insertA s.elements name record }
    let s := { s with cache := s.cache.put name record now }
    ({ s with saves := s.saves + 1 }, .ok record)

/-- Replace the version stored at Python index `i` of the list, returning
`none` on `IndexError`. -/
def pySetVersion (vs : List LocatorVersion) (i : Int) (f : LocatorVersion → LocatorVersion) :
    Option (List LocatorVersion) :=
  match pyIdx vs.length i with
  | some j => some (vs.set j (f (vs.getD j default)))
  | none => none

/-- `ElementRepository._activate_version`: demote the currently referenced
active version (if any) to DEPRECATED, then set the target version's status
to ACTIVE and repoint `active_version`.  Both list accesses use raw Python
indexing and can raise `IndexError`; a raise after the demotion leaves the
demotion in place (Python mutation survives the exception). -/
def activate_version (record : ElementRecord) (version : Int) (now : Int) :
    ElementRecord × Except PyErr Unit :=
  let step1 :=
    if 0 < record.active_version then
      match pySetVersion record.versions (record.active_version - 1)
          (fun v => { v with status := .en .DEPRECATED }) with
      | some vs => ({ record with versions := vs }, Except.ok ())
      | none => (record, Except.error PyErr.indexError)
    else (record, Except.ok ())
  match step1 with
  | (record, Except.error e) => (record, Except.error e)
  | (record, Except.ok _) =>
    match pySetVersion record.versions (version - 1)
        (fun v => { v with status := .en .ACTIVE }) with
    | some vs =>
      ({ record with versions := vs, active_version := version, updated_at := some now },
       Except.ok ())
    | none => (record, Except.error PyErr.indexError)

/-- `ElementRepository.add_version`: next version number is
`len(versions) + 1`; the version is built DRAFT, submitted for approval, and —
when auto-approved — `_activate_version` is invoked with the new number
*before* the append, indexing one past the end of the list. -/
def add_version (s : RepoState) (now : Int) (name css : String)
    (xpath : Option String) (alternatives : List String)
    (created_by : String) (ai_reasoning : Option String)
    (confidence_score : ℚ) :
    RepoState × Except PyErr LocatorVersion :=
  match lookupA s.elements name with
  | none => (s, .error (.valueError ("Element " ++ name ++ " does not exist")))
  | some record =>
    let next_version := record.versions.length + 1
    let v : LocatorVersion :=
      { version := next_version, css_selector := css, xpath_selector := xpath,
        alternatives := alternatives, confidence_score := confidence_score,
        created_at := now, created_by := created_by, status := .en .DRAFT,
        approval_status := .en .PENDING, approved_by := none, approved_at := none,
        usage_count := 0, success_rate := 0, last_used := none,
        ai_reasoning := ai_reasoning, validation_results := [] }
    let sub := submit_for_approval now v
    let v := sub.1
    let act :=
      if sub.2 = .AUTO_APPROVED then activate_version record (next_version : Int) now
      else (record, Except.ok ())
    match act with
    | (record, Except.error e) =>
      ({ s with elements := insertA s.elements name record }, .error e)
    | (record, Except.ok _) =>
      let record := { record with versions := record.versions ++ [v], updated_at := some now }
      let s := { s with elements := insertA s.elements name record }
      let s := { s with cache := s.cache.invalidate name }
      ({ s with saves := s.saves + 1 }, .ok v)

/-- `ElementRepository.approve_version`: unknown element or
`version > len(versions)` or a non-PENDING approval status yield `False`;
otherwise the version is marked APPROVED, activated, the cache invalidated
and the store persisted.  The `version - 1` list accesses use raw Python
indexing, so `version <= 0` wraps around to the end of the list instead of
being rejected, and a far-negative `version` raises `IndexError`. -/
def approve_version (s : RepoState) (now : Int) (name : String) (version : Int)
    (approver : String) : RepoState × Except PyErr Bool :=
  match lookupA s.elements name with
  | none => (s, .ok false)
  | some record =>
    if (record.versions.length : Int) < version then (s, .ok false)
    else
      match pyIdx record.versions.length (version - 1) with
      | none => (s, .error .indexError)
      | some j =>
        let version_obj := record.versions.getD j default
        if version_obj.approval_status ≠ .en .PENDING then (s, .ok false)
        else
          let vo2 := { version_obj with
            approval_status := ApprovalVal.en .APPROVED,
            approved_by := some approver,
            approved_at := some now }
          let record := { record with versions := record.versions.set j vo2 }
          let act := activate_version record version now
          let s := { s with elements := insertA s.elements name act.1 }
          match act.2 with
          | Except.error e => (s, .error e)
          | Except.ok _ =>
            let s := { s with cache := s.cache.invalidate name }
            ({ s with saves := s.saves + 1 }, .ok true)

/-- `ElementRepository.update_usage_stats`: no-op when the element is unknown
or has no active version; otherwise bumps the active version's usage counter
and last-used stamp, recomputes the running success rate, invalidates the
cache entry and fires a non-blocking save.  `bumpStats` is the in-place
mutation of the active version: usage counter and last-used stamp bumped,
then the running success rate recomputed (set directly on the first
observation, otherwise re-derived from the previous rate). -/
def bumpStats (now : Int) (success : Bool) (av : LocatorVersion) : LocatorVersion :=
  let av1 := { av with usage_count := av.usage_count + 1, last_used := some now }
  if av1.usage_count = 1 then
    { av1 with success_rate := if success then 1 else 0 }
  else
    let cs : ℚ := av1.success_rate * ((av1.usage_count - 1 : Nat) : ℚ)
    let cs := if success then cs + 1 else cs
    { av1 with success_rate := cs / (av1.usage_count : ℚ) }

def update_usage_stats (s : RepoState) (now : Int) (name : String) (success : Bool) :
    RepoState :=
  match lookupA s.elements name with
  | none => s
  | some record =>
    match record.get_active_version with
    | none => s
    | some av =>
      let av2 := bumpStats now success av
      let newVersions := record.versions.set (record.active_version - 1).toNat av2
      let record := { record with versions := newVersions }
      let s := { s with elements := insertA s.elements name record }
      let s := { s with cache := s.cache.invalidate name }
      { s with saves := s.saves + 1 }

/-- Lower-case a string the way `str.lower()` does for the ASCII selectors
used here. -/
def lowerL (x : String) : List Char :=
  x.data.map Char.toLower

/-- Whether `p` is a prefix of `l` (character lists). -/
def isPrefixL : List Char → List Char → Bool
  | [], _ => true
  | _ :: _, [] => false
  | a :: as, b :: bs => a == b && isPrefixL as bs

/-- Substring containment on character lists: Python's `in` on strings. -/
def containsL (p : List Char) : List Char → Bool
  | [] => isPrefixL p []
  | c :: rest => isPrefixL p (c :: rest) || containsL p rest

/-- `query.lower() in x.lower()`. -/
def pyIn (query x : String) : Bool :=
  containsL (lowerL query) (lowerL x)

/-- Loop body of `ElementRepository.search_elements`, with the source's exact
control flow: a name match appends and `continue`s; a css/xpath match appends
and `continue`s; an alternatives match appends and falls through; the final
`len(results) >= limit` break check runs only when control falls through. -/
def searchGo (query : String) (limit : Nat) :
    List (String × ElementRecord) → List ElementRecord → List ElementRecord
  | [], results => results
  | (name, record) :: rest, results =>
    if pyIn query name then searchGo query limit rest (results ++ [record])
    else
      match record.get_active_version with
      | some av =>
        if pyIn query av.css_selector ||
           (match av.xpath_selector with
            | some x => !(x == "") && pyIn query x
            | none => false) then
          searchGo query limit rest (results ++ [record])
        else
          let results :=
            if av.alternatives.any (fun alt => pyIn query alt) then results ++ [record]
            else results
          if limit ≤ results.length then results
          else searchGo query limit rest results
      | none =>
        if limit ≤ results.length then results
        else searchGo query limit rest results

/-- `ElementRepository.search_elements`. -/
def search_elements (s : RepoState) (query : String) (limit : Nat) : List ElementRecord :=
  searchGo query limit s.elements []

/-- Serialization of a dynamically typed status field by
`json.dump(data, f, indent=2, default=str)`: enum members are not JSON
serializable, so the encoder falls back to `str(member)`; strings pass
through unchanged. -/
def serializeStatus : StatusVal → StatusVal
  | .en e => .st (locatorStatusStr e)
  | .st x => .st x

/-- Same fallback for the `approval_status` field. -/
def serializeApproval : ApprovalVal → ApprovalVal
  | .en e => .st (approvalStatusStr e)
  | .st x => .st x

/-- The JSON image of one version under `dataclasses.asdict` followed by
`json.dump(..., default=str)`: every field survives verbatim except the two
enum-valued fields, which are replaced by their `str()` form. -/
def saveVersion (v : LocatorVersion) : LocatorVersion :=
  { v with status := serializeStatus v.status,
           approval_status := serializeApproval v.approval_status }

/-- The JSON image of one element record under `_save_to_storage`. -/
def saveRecord (r : ElementRecord) : ElementRecord :=
  { r with versions := r.versions.map saveVersion }

/-- `_save_to_storage`: the persisted JSON document, top-level keys the
element names in map order. -/
def save_to_storage (s : RepoState) : List (String × ElementRecord) :=
  s.elements.map (fun p => (p.1, saveRecord p.2))

/-- Reconstruction of one version by `_load_from_storage` via
`LocatorVersion(**version_data)`: every stored field is assigned verbatim
(in particular the stringified status fields stay strings). -/
def loadVersion (v : LocatorVersion) : LocatorVersion :=
  { version := v.version, css_selector := v.css_selector,
    xpath_selector := v.xpath_selector, alternatives := v.alternatives,
    confidence_score := v.confidence_score, created_at := v.created_at,
    created_by := v.created_by, status := v.status,
    approval_status := v.approval_status, approved_by := v.approved_by,
    approved_at := v.approved_at, usage_count := v.usage_count,
    success_rate := v.success_rate, last_used := v.last_used,
    ai_reasoning := v.ai_reasoning, validation_results := v.validation_results }

/-- Reconstruction of one record by `_load_from_storage` via
`ElementRecord(element_name=..., versions=..., active_version=..., ...)`. -/
def loadRecord (name : String) (r : ElementRecord) : ElementRecord :=
  { element_name := name, versions := r.versions.map loadVersion,
    active_version := r.active_version, description := r.description,
    tags := r.tags, page_context := r.page_context,
    created_at := r.created_at, updated_at := r.updated_at }

/-- `_load_from_storage` applied to a stored document by a fresh repository:
the authoritative map it ends up with. -/
def load_from_storage (doc : List (String × ElementRecord)) : List (String × ElementRecord) :=
  doc.map (fun p => (p.1, loadRecord p.1 p.2))

/-- The per-element invariant stated by the spec: at most one ACTIVE-status
entry in `versions`; `active_version` is 0 with no ACTIVE version present, or
a valid 1-based index referencing the unique ACTIVE version. -/
def recordInvariant (r : ElementRecord) : Bool :=
  (r.versions.countP (fun v => v.status == .en .ACTIVE) ≤ 1 : Bool) &&
  (if r.active_version = 0 then
     r.versions.all (fun v => v.status != .en .ACTIVE)
   else
     decide (0 < r.active_version ∧ r.active_version ≤ (r.versions.length : Int)) &&
     (match r.get_active_version with
      | some av => av.status == .en .ACTIVE
      | none => false))

/- ===== Schema validation (`schema_validator.py`) ===== -/

/-- JSON scalar values appearing in tool-call payloads and `enum` lists. -/
inductive JVal where
  | jnull
  | jbool : Bool → JVal
  | jnum : ℚ → JVal
  | jstr : String → JVal
deriving DecidableEq, Repr

/-- The error codes of `error_model.ErrorCode` reachable from the schema
validator. -/
inductive ErrorCode where
  | MISSING_REQUIRED_FIELD
  | INVALID_FIELD_VALUE
  | INVALID_FIELD_TYPE
  | INVALID_ENUM_VALUE
  | INVALID_REGEX_PATTERN
  | SCHEMA_VALIDATION_FAILED
  | INVALID_URL_FORMAT
  | INVALID_UUID_FORMAT
  | INVALID_DATE_FORMAT
  | PARAMETER_OUT_OF_RANGE
  | INVALID_ARRAY_SIZE
deriving DecidableEq, Repr

/-- `SchemaValidator._get_error_code_from_validation_error`, embedded from the
source: maps the failing jsonschema validator keyword (and, for `format`, the
declared format value) to an error code. -/
def errorCodeFromValidator (validator_type : String) (validator_value : Option String) :
    ErrorCode :=
  if validator_type = "required" then .MISSING_REQUIRED_FIELD
  else if validator_type = "type" then .INVALID_FIELD_TYPE
  else if validator_type = "enum" then .INVALID_ENUM_VALUE
  else if validator_type = "pattern" then .INVALID_REGEX_PATTERN
  else if validator_type = "format" then
    (if validator_value = some "uri" then .INVALID_URL_FORMAT
     else if validator_value = some "uuid" then .INVALID_UUID_FORMAT
     else if validator_value = some "date-time" then .INVALID_DATE_FORMAT
     else .INVALID_FIELD_VALUE)
  else if validator_type = "minimum" ∨ validator_type = "maximum" ∨
          validator_type = "minLength" ∨ validator_type = "maxLength" then
    .PARAMETER_OUT_OF_RANGE
  else if validator_type = "minItems" ∨ validator_type = "maxItems" then
    .INVALID_ARRAY_SIZE
  else .INVALID_FIELD_VALUE

/-- Modelled from the spec: per-property constraints of a request sub-schema.
The on-disk JSON schema documents are data files outside `src/`; the spec
describes them as JSON-Schema object schemas with `required` and `properties`
(the latter carrying e.g. `enum` constraints), which is all the claims need. -/
structure PropSchema where
  enumVals : Option (List JVal)
deriving DecidableEq, Repr

/-- Modelled from the spec: an object sub-schema with `required` and
`properties`. -/
structure ObjSchema where
  required : List String
  properties : List (String × PropSchema)
deriving DecidableEq, Repr

/-- A tool schema document: `properties.request` / `properties.response`
sub-schemas; `none` models both a missing and an empty (falsy) sub-schema,
which `validate_request` treats alike via `if not request_schema`. -/
structure ToolSchema where
  request : Option ObjSchema
  response : Option ObjSchema
deriving DecidableEq, Repr

/-- Whether the payload is missing some `required` field of the schema. -/
def missingRequired (sch : ObjSchema) (payload : List (String × JVal)) : Bool :=
  sch.required.any (fun f => (lookupA payload f).isNone)

/-- Whether the payload violates some `enum` constraint of the schema. -/
def violatesEnum (sch : ObjSchema) (payload : List (String × JVal)) : Bool :=
  sch.properties.any (fun p =>
    match p.2.enumVals, lookupA payload p.1 with
    | some es, some v => !(es.contains v)
    | _, _ => false)

/-- Modelled from the spec: the jsonschema Draft7 validation pass used by
`_validate_data` is a third-party library call; per the spec only the first
violation encountered is reported (fail-fast), and the first violation's
validator keyword drives the error code.  `required` violations are checked
before per-property `enum` violations, matching the order in which the spec
lists them. -/
def firstViolationTag (sch : ObjSchema) (payload : List (String × JVal)) : Option String :=
  if missingRequired sch payload then some "required"
  else if violatesEnum sch payload then some "enum"
  else none

/-- `SchemaValidator.validate_request` over a registry of loaded schemas:
no registered schema or no `request` sub-schema give SCHEMA_VALIDATION_FAILED,
otherwise the first violation (if any) is mapped through the source's
error-code table. -/
def validate_request (schemas : List (String × ToolSchema)) (tool_name : String)
    (payload : List (String × JVal)) : Option ErrorCode :=
  match lookupA schemas tool_name with
  | none => some .SCHEMA_VALIDATION_FAILED
  | some sch =>
    match sch.request with
    | none => some .SCHEMA_VALIDATION_FAILED
    | some req =>
      (firstViolationTag req payload).map (fun t => errorCodeFromValidator t none)

/-- Modelled from the spec: the `run_action` request schema — `element_name`
and `action_type` required (the tests reject a request lacking
`element_name`; spec scenario 6 validates one with only `element_name` and
`action_type`), with an `enum` constraint on `action_type`. -/
def runActionRequest : ObjSchema :=
  { required := ["element_name", "action_type"],
    properties := [("action_type",
      { enumVals := some [.jstr "click", .jstr "type", .jstr "select", .jstr "hover"] })] }

/-- Modelled from the spec: the `run_action` tool schema document. -/
def runActionTool : ToolSchema :=
  { request := some runActionRequest, response := some { required := [], properties := [] } }

/-- Modelled from the spec: a registry holding the `run_action` schema. -/
def modelledSchemas : List (String × ToolSchema) :=
  [("run_action", runActionTool)]

/- ===== Concrete states used by counterexamples and witnesses ===== -/

/-- State after `create_element("e", "#e", created_by="user")` on a fresh
repository at time 0: version 1 stays DRAFT/PENDING, `active_version = 0`. -/
def demoUser : RepoState :=
  (create_element RepoState.empty 0 "e" "#e" none [] "user" none).1

/-- State after `create_element("e", "#e", created_by="system")` on a fresh
repository at time 0: version 1 auto-approved and ACTIVE. -/
def demoSys : RepoState :=
  (create_element RepoState.empty 0 "e" "#e" none [] "system" none).1

/-- The record stored for `"e"` in `demoUser`. -/
def demoUserRec : ElementRecord :=
  (lookupA demoUser.elements "e").getD default

/-- The record stored for `"e"` in `demoSys`. -/
def demoSysRec : ElementRecord :=
  (lookupA demoSys.elements "e").getD default

/-- The active version of the record stored in `demoSys`. -/
def demoSysActive : LocatorVersion :=
  demoSysRec.get_active_version.getD default

/-- State with two elements `"a1"`, `"a2"` (both auto-approved), used for the
search-limit counterexample. -/
def demoTwo : RepoState :=
  (create_element (create_element RepoState.empty 0 "a1" "#x" none [] "system" none).1
    0 "a2" "#y" none [] "system" none).1

/-- A sequence of `update_usage_stats(name, success)` calls, each with its own
clock value, applied in order. -/
def applyCalls (s : RepoState) (name : String) : List (Bool × Int) → RepoState
  | [] => s
  | (b, t) :: rest => applyCalls (update_usage_stats s t name b) name rest

/-- The match predicate justifying an entry of a `search_elements` result:
case-insensitive substring hit on the element's map key, or on the active
version's css selector, (truthy) xpath selector, or one of its alternative
selectors. -/
def pairMatches (q n : String) (r : ElementRecord) : Bool :=
  pyIn q n ||
  (match r.get_active_version with
   | some av =>
     pyIn q av.css_selector ||
     (match av.xpath_selector with
      | some x => !(x == "") && pyIn q x
      | none => false) ||
     av.alternatives.any (fun alt => pyIn q alt)
   | none => false)

/-- The record stored for `"a1"` in `demoTwo`. -/
def demoTwoRec : ElementRecord :=
  (lookupA demoTwo.elements "a1").getD default

/- ===== Theorems ===== -/

/-- Sanity check: the threshold literal is the rational 0.9. -/
theorem confidenceThreshold_eq : confidenceThreshold = 9 / 10 := by
  have h : confidenceThreshold = Rat.divInt 9 10 := Rat.mk'_eq_divInt
  rw [h, Rat.divInt_eq_div]
  norm_num

/-- Looking up the key just stored by a Python dict assignment returns the
stored value. -/
theorem lookupA_insertA_self {α : Type} (l : List (String × α)) (k : String) (v : α) :
    lookupA (insertA l k v) k = some v := by
  induction l with
  | nil => simp [insertA, lookupA]
  | cons p t ih =>
    by_cases h : p.1 = k
    · simp [insertA, lookupA, h]
    · simp [insertA, lookupA, h, ih]

/-- Reading back the element just written by `List.set`. -/
theorem getElemq_set_self {α : Type} (l : List α) (i : Nat) (a : α) (h : i < l.length) :
    (l.set i a)[i]? = some a := by
  induction l generalizing i with
  | nil => simp at h
  | cons x xs ih =>
    cases i with
    | zero => simp
    | succ n =>
      simp only [List.set]
      simpa using ih n (by simpa using h)

/-- C1: the claim asserts every `add_version` call returns normally with
version number `len(existing versions)+1` regardless of approval outcome.
On the auto-approved path the code raises `IndexError`: `_activate_version`
is called with the new number before the new version is appended, so it
indexes one past the end of the list; the element is left with its previous
active version demoted to DEPRECATED and nothing appended.  Evaluated at the
failing input (an element with one auto-approved version, then
`add_version(..., created_by="system")`). -/
theorem C1_add_version_auto_approved_raises :
    (add_version demoSys 1 "e" ".e2" none [] "system" none 0).2
        = Except.error PyErr.indexError ∧
    (lookupA (add_version demoSys 1 "e" ".e2" none [] "system" none 0).1.elements "e").map
        (fun r => (r.active_version, r.versions.map (fun v => (v.version, v.status))))
        = some (1, [(1, StatusVal.en LocatorStatus.DEPRECATED)]) := by
  constructor
  · decide
  · decide

/-- C2: the claim asserts every reachable state satisfies the single-ACTIVE /
`active_version`-consistency invariant.  The two-operation sequence
`create_element("e", ..., created_by="user")` then
`approve_version("e", 0, "admin")` is accepted (the `version > len(versions)`
range check does not reject 0, and Python indexing `versions[-1]` wraps to
the last version), and leaves `active_version = 0` while version 1 has status
ACTIVE — violating the invariant. -/
theorem C2_invariant_violated_by_approve_version_zero :
    (approve_version demoUser 1 "e" 0 "admin").2 = Except.ok true ∧
    (lookupA (approve_version demoUser 1 "e" 0 "admin").1.elements "e").map
        (fun r => (recordInvariant r, r.active_version, r.versions.map (fun v => v.status)))
        = some (false, 0, [StatusVal.en LocatorStatus.ACTIVE]) := by
  constructor
  · decide
  · decide

/-- C3: the claim asserts a save/load round trip reproduces every element
exactly.  `json.dump(..., default=str)` serializes the enum-valued `status`
and `approval_status` fields as `str(member)`, and `_load_from_storage`
assigns those strings back verbatim, so the reloaded record differs from the
original: evaluated at a repository holding one auto-approved element, the
reloaded version carries the strings `"LocatorStatus.ACTIVE"` /
`"ApprovalStatus.AUTO_APPROVED"` where the original carries enum members. -/
theorem C3_roundtrip_stringifies_enums :
    load_from_storage (save_to_storage demoSys) ≠ demoSys.elements ∧
    (lookupA (load_from_storage (save_to_storage demoSys)) "e").map
        (fun r => r.versions.map (fun v => (v.status, v.approval_status)))
        = some [(StatusVal.st "LocatorStatus.ACTIVE",
                 ApprovalVal.st "ApprovalStatus.AUTO_APPROVED")] ∧
    demoSysRec.versions.map (fun v => (v.status, v.approval_status))
        = [(StatusVal.en LocatorStatus.ACTIVE,
            ApprovalVal.en ApprovalStatus.AUTO_APPROVED)] := by
  refine ⟨by decide, by decide, by decide⟩

/-- C5: the claim asserts `approve_version` returns false whenever the version
number is out of the 1-based range.  Version number 0 is out of range but is
accepted (`.ok true`, wrapping to the last version via Python negative
indexing), and version number −2 on a one-version element raises `IndexError`
instead of returning false. -/
theorem C5_out_of_range_version_not_rejected :
    (approve_version demoUser 1 "e" 0 "admin").2 = Except.ok true ∧
    (approve_version demoUser 1 "e" (-2) "admin").2 = Except.error PyErr.indexError := by
  constructor
  · decide
  · decide

/-- C4 counterexample: the claim asserts `get_element(name, include_inactive
= False)` returns `None` whenever the record has no confirmed-active version,
in particular when `active_version` is 0.  For an element created with an
untrusted creator (`active_version = 0`, version 1 DRAFT) the call returns
the record — both served from the cache (time 0) and, after the cache entry
has expired, from the authoritative map (time 1000). -/
theorem C4_counterexample_active_version_zero_returned :
    demoUserRec.active_version = 0 ∧
    demoUserRec.get_active_version = none ∧
    (get_element demoUser 0 "e" false).2 = some demoUserRec ∧
    (demoUser.cache.get "e" 1000).2 = none ∧
    (get_element demoUser 1000 "e" false).2 = some demoUserRec := by
  refine ⟨by decide, by decide, by decide, by decide, by decide⟩

/-- C7 counterexample: the claim asserts `search_elements(query, limit)`
returns at most `limit` records.  Over a repository with two elements whose
names both contain `"a"`, a search with `limit = 1` returns 2 records: the
`continue` after a name match skips the `len(results) >= limit` break check. -/
theorem C7_counterexample_limit_exceeded :
    (search_elements demoTwo "a" 1).length = 2 := by
  decide

/-- C8 counterexample: the claim asserts a payload violating an enum
constraint always yields INVALID_ENUM_VALUE.  Validation is fail-fast (only
the first violation is reported), so the payload `{"action_type":
"invalid_action"}` against the modelled `run_action` request schema — which
both misses the required `element_name` and violates the `action_type` enum —
yields MISSING_REQUIRED_FIELD, not INVALID_ENUM_VALUE. -/
theorem C8_counterexample_enum_violation_masked :
    violatesEnum runActionRequest [("action_type", JVal.jstr "invalid_action")] = true ∧
    validate_request modelledSchemas "run_action"
        [("action_type", JVal.jstr "invalid_action")]
        = some ErrorCode.MISSING_REQUIRED_FIELD ∧
    validate_request modelledSchemas "run_action"
        [("action_type", JVal.jstr "invalid_action")]
        ≠ some ErrorCode.INVALID_ENUM_VALUE := by
  refine ⟨by decide, by decide, by decide⟩

/-- C4 amended: with `include_inactive = False`, `get_element` returns `None`
for an element present in the authoritative map exactly when the cache misses
and the record's referenced active version exists with a status other than
ACTIVE.  In particular a record whose `active_version` is 0 (no
confirmed-active version) is returned as-is rather than treated as absent,
and a cache hit is returned without any status check. -/
theorem C4_get_element_inactive_filter (s : RepoState) (now : Int) (name : String)
    (r : ElementRecord) (h : lookupA s.elements name = some r) :
    (get_element s now name false).2 = none ↔
      ((s.cache.get name now).2 = none ∧
       ∃ av, r.get_active_version = some av ∧
         av.status ≠ StatusVal.en LocatorStatus.ACTIVE) := by
  cases hres : (s.cache.get name now).2 with
  | some cached =>
    simp only [get_element, hres]
    simp
  | none =>
    simp only [get_element, hres, h]
    cases hav : r.get_active_version with
    | some av =>
      by_cases hst : av.status = StatusVal.en LocatorStatus.ACTIVE
      · simp [hst]
      · simp [hst, bne_iff_ne]
    | none => simp

/-- Witness for C4's amended statement at a concrete input: an element created
by an untrusted creator, looked up after its cache entry expired. -/
theorem C4_get_element_inactive_filter_witness :
    ((get_element demoUser 1000 "e" false).2 = none ↔
      ((demoUser.cache.get "e" 1000).2 = none ∧
       ∃ av, demoUserRec.get_active_version = some av ∧
         av.status ≠ StatusVal.en LocatorStatus.ACTIVE)) :=
  C4_get_element_inactive_filter demoUser 1000 "e" demoUserRec (by decide)

/-- Membership bridge between `List.contains` and `∈` for the trusted-creator
list. -/
theorem contains_iff_mem (l : List String) (x : String) :
    l.contains x = true ↔ x ∈ l := by
  induction l with
  | nil => simp
  | cons a t ih => simp_all [List.contains_cons]

/-- C6: the approval decision of `create_element`: the created record holds a
single version whose confidence score is the default 0.0; when that score
reaches the 0.9 threshold or the creator is trusted ("system"/"admin") the
record comes back with `active_version = 1` and version 1 ACTIVE and
AUTO_APPROVED, otherwise with `active_version = 0` and version 1 DRAFT and
PENDING. -/
theorem C6_create_element_approval (s : RepoState) (now : Int) (name css : String)
    (xp : Option String) (alts : List String) (cb : String) (reas : Option String)
    (hfree : lookupA s.elements name = none) :
    ∃ s' r v, create_element s now name css xp alts cb reas = (s', Except.ok r) ∧
      r.versions = [v] ∧ v.confidence_score = 0 ∧
      ((confidenceThreshold ≤ v.confidence_score ∨ cb ∈ trustedCreators) →
        r.active_version = 1 ∧ v.status = StatusVal.en LocatorStatus.ACTIVE ∧
          v.approval_status = ApprovalVal.en ApprovalStatus.AUTO_APPROVED) ∧
      ((¬(confidenceThreshold ≤ v.confidence_score ∨ cb ∈ trustedCreators)) →
        r.active_version = 0 ∧ v.status = StatusVal.en LocatorStatus.DRAFT ∧
          v.approval_status = ApprovalVal.en ApprovalStatus.PENDING) := by
  have hthr : ¬ (confidenceThreshold ≤ (0 : ℚ)) := by decide
  by_cases hauto : cb ∈ trustedCreators
  · have hc : trustedCreators.contains cb = true := (contains_iff_mem _ _).mpr hauto
    simp only [create_element, hfree, Option.isSome_none, Bool.false_eq_true, if_false,
      submit_for_approval, should_auto_approve, hc, Bool.or_true, if_true]
    refine ⟨_, _, _, rfl, rfl, rfl, ?_, ?_⟩
    · intro _; exact ⟨rfl, rfl, rfl⟩
    · intro hn; exact absurd (Or.inr hauto) hn
  · have hc : trustedCreators.contains cb = false := by
      cases hcc : trustedCreators.contains cb with
      | false => rfl
      | true => exact absurd ((contains_iff_mem _ _).mp hcc) hauto
    simp only [create_element, hfree, Option.isSome_none, Bool.false_eq_true, if_false,
      submit_for_approval, should_auto_approve, hc, Bool.or_false]
    have hthrb : decide (confidenceThreshold ≤ (0 : ℚ)) = false := by decide
    simp only [hthrb, Bool.false_eq_true, if_false]
    refine ⟨_, _, _, rfl, rfl, rfl, ?_, ?_⟩
    · rintro (hle | hm)
      · exact absurd hle hthr
      · exact absurd hm hauto
    · intro _; exact ⟨rfl, rfl, rfl⟩

/-- Witness for C6 at a trusted creator: `create_element` on a fresh
repository with `created_by = "system"`. -/
theorem C6_create_element_approval_witness :
    ∃ s' r v, create_element RepoState.empty 0 "e" "#e" none [] "system" none
        = (s', Except.ok r) ∧
      r.versions = [v] ∧ v.confidence_score = 0 ∧
      ((confidenceThreshold ≤ v.confidence_score ∨ "system" ∈ trustedCreators) →
        r.active_version = 1 ∧ v.status = StatusVal.en LocatorStatus.ACTIVE ∧
          v.approval_status = ApprovalVal.en ApprovalStatus.AUTO_APPROVED) ∧
      ((¬(confidenceThreshold ≤ v.confidence_score ∨ "system" ∈ trustedCreators)) →
        r.active_version = 0 ∧ v.status = StatusVal.en LocatorStatus.DRAFT ∧
          v.approval_status = ApprovalVal.en ApprovalStatus.PENDING) :=
  C6_create_element_approval RepoState.empty 0 "e" "#e" none [] "system" none (by decide)

/-- Soundness of the `search_elements` loop: every record in the output was
already in the accumulator or comes from a scanned map entry it matches. -/
theorem searchGo_sound (q : String) (limit : Nat) :
    ∀ (l : List (String × ElementRecord)) (acc : List ElementRecord) (r : ElementRecord),
      r ∈ searchGo q limit l acc →
      r ∈ acc ∨ ∃ n, (n, r) ∈ l ∧ pairMatches q n r = true := by
  intro l
  induction l with
  | nil =>
    intro acc r h
    simp only [searchGo] at h
    exact Or.inl h
  | cons p rest ih =>
    obtain ⟨name, record⟩ := p
    intro acc r h
    simp only [searchGo] at h
    by_cases h1 : pyIn q name = true
    · rw [if_pos h1] at h
      rcases ih _ r h with hacc | ⟨n, hn, hm⟩
      · rcases List.mem_append.mp hacc with ha | hb
        · exact Or.inl ha
        · have hr : r = record := by simpa using hb
          subst hr
          exact Or.inr ⟨name, by simp, by simp [pairMatches, h1]⟩
      · exact Or.inr ⟨n, by simp [hn], hm⟩
    · rw [if_neg h1] at h
      cases hav : record.get_active_version with
      | some av =>
        simp only [hav] at h
        by_cases h2 : (pyIn q av.css_selector ||
            (match av.xpath_selector with
             | some x => !(x == "") && pyIn q x
             | none => false)) = true
        · rw [if_pos h2] at h
          rcases ih _ r h with hacc | ⟨n, hn, hm⟩
          · rcases List.mem_append.mp hacc with ha | hb
            · exact Or.inl ha
            · have hr : r = record := by simpa using hb
              subst hr
              refine Or.inr ⟨name, by simp, ?_⟩
              simp only [pairMatches, hav, h2, Bool.true_or, Bool.or_true]
          · exact Or.inr ⟨n, by simp [hn], hm⟩
        · rw [if_neg h2] at h
          by_cases h3 : av.alternatives.any (fun alt => pyIn q alt) = true
          · rw [if_pos h3] at h
            by_cases h4 : limit ≤ (acc ++ [record]).length
            · rw [if_pos h4] at h
              rcases List.mem_append.mp h with ha | hb
              · exact Or.inl ha
              · have hr : r = record := by simpa using hb
                subst hr
                exact Or.inr ⟨name, by simp, by simp [pairMatches, hav, h3]⟩
            · rw [if_neg h4] at h
              rcases ih _ r h with hacc | ⟨n, hn, hm⟩
              · rcases List.mem_append.mp hacc with ha | hb
                · exact Or.inl ha
                · have hr : r = record := by simpa using hb
                  subst hr
                  exact Or.inr ⟨name, by simp, by simp [pairMatches, hav, h3]⟩
              · exact Or.inr ⟨n, by simp [hn], hm⟩
          · rw [if_neg h3] at h
            by_cases h4 : limit ≤ acc.length
            · rw [if_pos h4] at h
              exact Or.inl h
            · rw [if_neg h4] at h
              rcases ih _ r h with hacc | ⟨n, hn, hm⟩
              · exact Or.inl hacc
              · exact Or.inr ⟨n, by simp [hn], hm⟩
      | none =>
        simp only [hav] at h
        by_cases h4 : limit ≤ acc.length
        · rw [if_pos h4] at h
          exact Or.inl h
        · rw [if_neg h4] at h
          rcases ih _ r h with hacc | ⟨n, hn, hm⟩
          · exact Or.inl hacc
          · exact Or.inr ⟨n, by simp [hn], hm⟩

/-- C7 amended: every record returned by `search_elements` matches the query
case-insensitively in its map key (element name), its active version's css
selector, its (truthy) xpath selector, or one of its alternative selectors.
(The "at most limit records" half of the claim fails — see the
counterexample — because the break check is skipped after name and
css/xpath matches.) -/
theorem C7_search_results_match (s : RepoState) (q : String) (limit : Nat)
    (r : ElementRecord) (h : r ∈ search_elements s q limit) :
    ∃ n, (n, r) ∈ s.elements ∧ pairMatches q n r = true := by
  rcases searchGo_sound q limit s.elements [] r h with hacc | hex
  · simp at hacc
  · exact hex

/-- Witness for C7's amended statement: the record returned for `"a1"` by the
over-limit search matches the query. -/
theorem C7_search_results_match_witness :
    ∃ n, (n, demoTwoRec) ∈ demoTwo.elements ∧ pairMatches "a" n demoTwoRec = true :=
  C7_search_results_match demoTwo "a" 1 demoTwoRec (by decide)

/-- C8 amended: `validate_request` yields SCHEMA_VALIDATION_FAILED when no
schema is registered for the tool or the registered schema has no `request`
sub-schema; with a request sub-schema present, a payload whose first reported
violation is a missing required field yields MISSING_REQUIRED_FIELD, and one
whose first reported violation is an enum violation yields
INVALID_ENUM_VALUE.  (Validation is fail-fast, so a payload with both kinds
of violation yields only the first code — see the counterexample.) -/
theorem C8_validate_request_error_codes (schemas : List (String × ToolSchema))
    (tool : String) (payload : List (String × JVal)) :
    (lookupA schemas tool = none →
      validate_request schemas tool payload = some ErrorCode.SCHEMA_VALIDATION_FAILED) ∧
    (∀ ts, lookupA schemas tool = some ts → ts.request = none →
      validate_request schemas tool payload = some ErrorCode.SCHEMA_VALIDATION_FAILED) ∧
    (∀ ts req, lookupA schemas tool = some ts → ts.request = some req →
      missingRequired req payload = true →
      validate_request schemas tool payload = some ErrorCode.MISSING_REQUIRED_FIELD) ∧
    (∀ ts req, lookupA schemas tool = some ts → ts.request = some req →
      missingRequired req payload = false → violatesEnum req payload = true →
      validate_request schemas tool payload = some ErrorCode.INVALID_ENUM_VALUE) := by
  refine ⟨?_, ?_, ?_, ?_⟩
  · intro h
    simp [validate_request, h]
  · intro ts hts hreq
    simp [validate_request, hts, hreq]
  · intro ts req hts hreq hmr
    simp [validate_request, hts, hreq, firstViolationTag, hmr]
    rfl
  · intro ts req hts hreq hmr hve
    simp [validate_request, hts, hreq, firstViolationTag, hmr, hve]
    rfl

/-- Witness for C8's amended statement at concrete inputs: an unregistered
tool name, and a payload whose only violation is an enum violation. -/
theorem C8_validate_request_error_codes_witness :
    validate_request modelledSchemas "missing_tool" []
        = some ErrorCode.SCHEMA_VALIDATION_FAILED ∧
    validate_request modelledSchemas "run_action"
        [("element_name", JVal.jstr "x"), ("action_type", JVal.jstr "bad")]
        = some ErrorCode.INVALID_ENUM_VALUE :=
  ⟨(C8_validate_request_error_codes modelledSchemas "missing_tool" []).1 (by decide),
   (C8_validate_request_error_codes modelledSchemas "run_action"
      [("element_name", JVal.jstr "x"), ("action_type", JVal.jstr "bad")]).2.2.2
     runActionTool runActionRequest (by decide) (by decide) (by decide) (by decide)⟩

/-- Unfolding `get_active_version = some _` into its guard and list access. -/
theorem get_active_version_eq_some (r : ElementRecord) (av : LocatorVersion)
    (h : r.get_active_version = some av) :
    (0 < r.active_version ∧ r.active_version ≤ (r.versions.length : Int)) ∧
    r.versions[(r.active_version - 1).toNat]? = some av := by
  by_cases hg : 0 < r.active_version ∧ r.active_version ≤ (r.versions.length : Int)
  · exact ⟨hg, by simpa [ElementRecord.get_active_version, hg] using h⟩
  · simp [ElementRecord.get_active_version, hg] at h

/-- One `update_usage_stats` call on an element with an active version: the
element keeps an active version, its usage count grows by one, and its new
success rate satisfies the exact-rational recurrence
`rate' * (n+1) = rate * n + (1 if success else 0)`. -/
theorem update_usage_stats_step (s : RepoState) (now : Int) (name : String) (b : Bool)
    (r : ElementRecord) (av : LocatorVersion)
    (h1 : lookupA s.elements name = some r) (h2 : r.get_active_version = some av) :
    ∃ r' av', lookupA (update_usage_stats s now name b).elements name = some r' ∧
      r'.get_active_version = some av' ∧
      av'.usage_count = av.usage_count + 1 ∧
      av'.success_rate * ((av.usage_count : ℚ) + 1) =
        av.success_rate * (av.usage_count : ℚ) + (if b then 1 else 0) := by
  obtain ⟨hg, hget⟩ := get_active_version_eq_some r av h2
  have hlt : (r.active_version - 1).toNat < r.versions.length := by
    rcases List.getElem?_eq_some.mp hget with ⟨hl, _⟩
    exact hl
  simp only [update_usage_stats, h1, h2]
  refine ⟨{ r with versions :=
      r.versions.set (r.active_version - 1).toNat (bumpStats now b av) },
    bumpStats now b av, ?_, ?_, ?_, ?_⟩
  · exact lookupA_insertA_self _ _ _
  · simp only [ElementRecord.get_active_version, List.length_set]
    rw [if_pos hg]
    exact getElemq_set_self _ _ _ hlt
  · by_cases h0 : av.usage_count + 1 = 1
    · simp [bumpStats, h0]
    · simp [bumpStats, h0]
  · by_cases h0 : av.usage_count = 0
    · simp only [bumpStats]
      rw [if_pos (by simp [h0])]
      cases b <;> simp [h0]
    · simp only [bumpStats]
      rw [if_neg (by simpa using h0)]
      have hne : ((av.usage_count : ℚ) + 1) ≠ 0 := by positivity
      have hsub : av.usage_count + 1 - 1 = av.usage_count := by omega
      rw [hsub]
      push_cast
      rw [div_mul_cancel₀ _ hne]
      cases b <;> simp

/-- Folding a sequence of usage updates: the usage count grows by the number
of calls and the success-rate recurrence telescopes to
`rate' * (n + k) = rate * n + (number of successes)`. -/
theorem applyCalls_stats (name : String) :
    ∀ (calls : List (Bool × Int)) (s : RepoState) (r : ElementRecord) (av : LocatorVersion),
      lookupA s.elements name = some r → r.get_active_version = some av →
      ∃ r' av', lookupA (applyCalls s name calls).elements name = some r' ∧
        r'.get_active_version = some av' ∧
        av'.usage_count = av.usage_count + calls.length ∧
        av'.success_rate * ((av.usage_count : ℚ) + calls.length) =
          av.success_rate * (av.usage_count : ℚ) + (calls.countP (fun c => c.1) : ℚ) := by
  intro calls
  induction calls with
  | nil =>
    intro s r av h1 h2
    exact ⟨r, av, h1, h2, by simp, by simp⟩
  | cons c rest ih =>
    obtain ⟨b, t⟩ := c
    intro s r av h1 h2
    obtain ⟨r1, av1, k1, k2, k3, k4⟩ := update_usage_stats_step s t name b r av h1 h2
    obtain ⟨r', av', m1, m2, m3, m4⟩ := ih (update_usage_stats s t name b) r1 av1 k1 k2
    refine ⟨r', av', ?_, m2, ?_, ?_⟩
    · simpa only [applyCalls] using m1
    · simp only [List.length_cons]
      omega
    · rw [k3] at m4
      simp only [List.length_cons, List.countP_cons] at m4 ⊢
      push_cast at m4 ⊢
      linear_combination m4 + k4

/-- C9: over exact rational arithmetic, after any nonempty sequence of
usage-stat updates on an element whose active version starts with usage
count 0, the active version's usage count equals the number of calls and its
success rate equals (number of successes) / (number of calls). -/
theorem C9_update_usage_stats_success_rate (s : RepoState) (name : String)
    (r : ElementRecord) (av : LocatorVersion) (calls : List (Bool × Int))
    (h1 : lookupA s.elements name = some r) (h2 : r.get_active_version = some av)
    (h3 : av.usage_count = 0) (h4 : calls ≠ []) :
    ∃ r' av', lookupA (applyCalls s name calls).elements name = some r' ∧
      r'.get_active_version = some av' ∧
      av'.usage_count = calls.length ∧
      av'.success_rate = (calls.countP (fun c => c.1) : ℚ) / (calls.length : ℚ) := by
  obtain ⟨r', av', m1, m2, m3, m4⟩ := applyCalls_stats name calls s r av h1 h2
  rw [h3] at m3 m4
  simp only [Nat.cast_zero, zero_add, mul_zero, zero_mul] at m4
  have hlen : calls.length ≠ 0 := by
    simpa [List.length_eq_zero] using h4
  have hlenq : ((calls.length : ℚ)) ≠ 0 := Nat.cast_ne_zero.mpr hlen
  refine ⟨r', av', m1, m2, by omega, ?_⟩
  rw [eq_div_iff hlenq]
  exact m4

/-- Witness for C9 at a concrete run: two successes then one failure on a
fresh auto-approved element. -/
theorem C9_update_usage_stats_success_rate_witness :
    ∃ r' av',
      lookupA (applyCalls demoSys "e" [(true, 1), (true, 2), (false, 3)]).elements "e"
        = some r' ∧
      r'.get_active_version = some av' ∧
      av'.usage_count = ([(true, 1), (true, 2), (false, 3)] : List (Bool × Int)).length ∧
      av'.success_rate =
        ((([(true, 1), (true, 2), (false, 3)] : List (Bool × Int)).countP
            (fun c => c.1) : ℚ)) /
          ((([(true, 1), (true, 2), (false, 3)] : List (Bool × Int)).length : ℚ)) :=
  C9_update_usage_stats_success_rate demoSys "e" demoSysRec demoSysActive
    [(true, 1), (true, 2), (false, 3)] (by decide) (by decide) (by decide) (by decide)

/-- C10: `update_usage_stats` on an element that exists in the authoritative
map but has no active version (`active_version` 0 or not a valid index)
leaves the entire repository state unchanged — elements map, cache and
initiated persistence writes included. -/
theorem C10_update_usage_stats_no_active_noop (s : RepoState) (now : Int)
    (name : String) (b : Bool) (r : ElementRecord)
    (h1 : lookupA s.elements name = some r)
    (h2 : r.get_active_version = none) :
    update_usage_stats s now name b = s := by
  simp [update_usage_stats, h1, h2]

/-- Witness for C10 at a concrete input: the element created by an untrusted
creator has no active version, and a success observation leaves the state
untouched. -/
theorem C10_update_usage_stats_no_active_noop_witness :
    lookupA demoUser.elements "e" = some demoUserRec ∧
    demoUserRec.get_active_version = none ∧
    update_usage_stats demoUser 5 "e" true = demoUser :=
  ⟨by decide, by decide,
   C10_update_usage_stats_no_active_noop demoUser 5 "e" true demoUserRec
     (by decide) (by decide)⟩

end ElementRepo
